import Mathlib

/-
Shallow embedding of the core pipeline of src/app.py (Tactical-wx-Riau):
the fetcher, the normalizer flatten_cuaca_entry, and the derived-metrics
functions ceiling_proxy_from_tcc, convert_vis_to_sm, classify_ifr_vfr and
takeoff_landing_recommendation.

Modelling conventions:
- Python scalars and JSON values are a PyVal inductive; PyVal.none models
  both Python None and float NaN (pandas missing values collapse the two:
  pd.isna is true exactly on PyVal.none here).
- Machine floats are idealized as rationals.
- Raised exceptions are Except.error with the exception class name as the
  message; returning normally is Except.ok.
-/

/-- Python values as they occur in the JSON payload and the dataframe cells.
The constructor named none models both Python None and float NaN. -/
inductive PyVal where
  | none : PyVal
  | bool (b : Bool) : PyVal
  | num (q : ℚ) : PyVal
  | str (s : String) : PyVal
  | list (xs : List PyVal) : PyVal
  | dict (kvs : List (String × PyVal)) : PyVal

/-- A dataframe row and a Python dict share this association-list shape. -/
abbrev Row := List (String × PyVal)

/-- Python dict lookup with a default: d.get(key, default). -/
def rowGetD : Row → String → PyVal → PyVal
  | [], _, d => d
  | (k0, v0) :: rest, c, d => if k0 == c then v0 else rowGetD rest c d

/-- Python dict item assignment d[key] = v (also one step of dict.update):
replaces the value at an existing key in place, else appends. -/
def dictSet : Row → String → PyVal → Row
  | [], k, v => [(k, v)]
  | (k0, v0) :: rest, k, v =>
    if k0 == k then (k0, v) :: rest else (k0, v0) :: dictSet rest k v

/-- Python iteration: lists yield their elements, dicts yield their keys,
strings yield their characters as one-character strings; other values raise
TypeError. -/
def pyIter : PyVal → Except String (List PyVal)
  | .list xs => .ok xs
  | .dict kvs => .ok (kvs.map fun kv => PyVal.str kv.1)
  | .str s => .ok (s.toList.map fun c => PyVal.str (String.mk [c]))
  | _ => .error "TypeError"

/-- Python attribute call v.get(key, default): only dicts have a get method;
anything else raises AttributeError. -/
def pyGet (v : PyVal) (k : String) (dflt : PyVal) : Except String PyVal :=
  match v with
  | .dict kvs => .ok (rowGetD kvs k dflt)
  | _ => .error "AttributeError"

/-- Digit characters to a natural number (callers check allDigits first). -/
def digitsVal (cs : List Char) : ℕ :=
  cs.foldl (fun acc c => acc * 10 + (c.toNat - 48)) 0

/-- True when every character is a decimal digit. -/
def allDigits (cs : List Char) : Bool :=
  cs.all fun c => c.isDigit

/-- Characters before the first dot. -/
def intPart : List Char → List Char
  | [] => []
  | c :: rest => if c = '.' then [] else c :: intPart rest

/-- Characters after the first dot (empty when there is no dot). -/
def fracPart : List Char → List Char
  | [] => []
  | c :: rest => if c = '.' then rest else fracPart rest

/-- Python float(s) and pandas to_numeric on a string, restricted to plain
decimal literals with an optional sign: none models a parse failure
(ValueError, or NaN under errors=coerce). Exponent, infinity, nan and
whitespace forms of the float grammar are outside the model; no claim
exercises them. -/
def parseRat (s : String) : Option ℚ :=
  let cs := s.toList
  let signed : Bool × List Char :=
    match cs with
    | '-' :: rest => (true, rest)
    | '+' :: rest => (false, rest)
    | _ => (false, cs)
  let body := signed.2
  let ip := intPart body
  let fp := fracPart body
  if 1 < (body.filter fun c => c = '.').length then none
  else if ¬ (allDigits ip ∧ allDigits fp) then none
  else if ip.length + fp.length = 0 then none
  else
    let mag : ℚ := (digitsVal ip : ℚ) + (digitsVal fp : ℚ) / 10 ^ fp.length
    some (if signed.1 then -mag else mag)

/-- Floor of a rational as an integer, computed by floor division. -/
def ratFloor (q : ℚ) : ℤ :=
  q.num.fdiv q.den

/-- Python int(q): truncation toward zero. -/
def pyInt (q : ℚ) : ℤ :=
  if 0 ≤ q then ratFloor q else -(ratFloor (-q))

/-- Python round(q): round half to even (bankers rounding). -/
def rndHalfEven (q : ℚ) : ℤ :=
  let f := ratFloor q
  let r := q - (f : ℚ)
  if r < 1/2 then f
  else if 1/2 < r then f + 1
  else if f.emod 2 = 0 then f else f + 1

/-- Python format spec .1f: one digit after the decimal point. -/
def fmt1 (q : ℚ) : String :=
  let n := rndHalfEven (q * 10)
  let sgn := if n < 0 then "-" else ""
  let a := n.natAbs
  sgn ++ toString (a / 10) ++ "." ++ toString (a % 10)

/-- Decimal digits of a fractional part num/den by long division, with fuel
(floats have finite decimal expansions; 17 digits covers repr). -/
def fracDigits : ℕ → ℕ → ℕ → String
  | 0, _, _ => ""
  | _, 0, _ => ""
  | fuel + 1, num, den =>
    let d := num * 10 / den
    let r := num * 10 % den
    toString d ++ fracDigits fuel r den

/-- Python str on a float value: integral values render with a trailing .0,
as in str(25.0). -/
def pyStr (q : ℚ) : String :=
  let sgn := if q < 0 then "-" else ""
  let a := |q|
  let ip := (ratFloor a).toNat
  let frac := a - (ip : ℚ)
  if frac = 0 then sgn ++ toString ip ++ ".0"
  else sgn ++ toString ip ++ "." ++ fracDigits 17 frac.num.natAbs frac.den

/-
Source constants (src/app.py lines 448-450).
-/

/-- Conversion factor from metres per second to knots (app.py line 449). -/
def MS_TO_KT : ℚ := 194384 / 100000

/-- Conversion factor from metres to statute miles (app.py line 450). -/
def METER_TO_SM : ℚ := 621371 / 1000000000

/-
Fetcher (src/app.py lines 455-460). The network call requests.get either
raises (timeout, connection error) or yields a response with a status code
and a body; resp.raise_for_status() raises requests.exceptions.HTTPError
for any status of 400 or above, and resp.json() returns the parsed body.
-/

/-- Outcome of the underlying requests.get call: the environment either
raises a timeout or connection error, or delivers a response with an HTTP
status code and a parsed JSON body. -/
inductive HttpOutcome where
  | timeout : HttpOutcome
  | connError : HttpOutcome
  | response (status : ℕ) (body : PyVal) : HttpOutcome

/-- fetch_forecast from app.py lines 455-460: performs the GET, calls
raise_for_status (which raises HTTPError for status 400 and above), and
returns the parsed JSON body. Raised exceptions are Except.error. -/
def fetch_forecast (outcome : HttpOutcome) : Except String PyVal :=
  match outcome with
  | .timeout => .error "Timeout"
  | .connError => .error "ConnectionError"
  | .response status body =>
    if 400 ≤ status then .error "HTTPError" else .ok body

/-
Normalizer (src/app.py lines 462-484): flatten_cuaca_entry.
-/

/-- pandas to_datetime with errors=coerce. A dict-valued argument is
dispatched to the assemble-datetime-from-a-mapping path, which raises
ValueError even under errors=coerce; a list-like argument is coerced
elementwise and does not raise; every other value parses or becomes NaT
(PyVal.none) without raising. Strings keep their payload as the parsed
timestamp; no claim inspects the parsed value itself. -/
def pdToDatetimeCoerce (v : PyVal) : Except String PyVal :=
  match v with
  | .dict _ => .error "ValueError"
  | .str s => .ok (.str s)
  | .list xs => .ok (.list xs)
  | _ => .ok .none

/-- The r.update step of app.py lines 468-475: the six lokasi fields,
each looked up with dict.get defaulting to None. -/
def lokasiMerge (f l : Row) : Row :=
  let r := f
  let r := dictSet r "adm1" (rowGetD l "adm1" PyVal.none)
  let r := dictSet r "adm2" (rowGetD l "adm2" PyVal.none)
  let r := dictSet r "provinsi" (rowGetD l "provinsi" PyVal.none)
  let r := dictSet r "kotkab" (rowGetD l "kotkab" PyVal.none)
  let r := dictSet r "lon" (rowGetD l "lon" PyVal.none)
  let r := dictSet r "lat" (rowGetD l "lat" PyVal.none)
  r

/-- The row built for one observation dict inside app.py lines 467-479:
r = obs.copy(); r.update with the six lokasi fields; then the two
datetime columns, whose to_datetime calls raise ValueError when the
corresponding field holds a dict. -/
def mergedRow (f l : Row) : Except String Row :=
  let r := lokasiMerge f l
  match pdToDatetimeCoerce (rowGetD r "utc_datetime" PyVal.none) with
  | .error e => .error e
  | .ok u =>
    let r2 := dictSet r "utc_datetime_dt" u
    match pdToDatetimeCoerce (rowGetD r2 "local_datetime" PyVal.none) with
    | .error e => .error e
    | .ok w => .ok (dictSet r2 "local_datetime_dt" w)

/-- One loop body iteration of app.py lines 466-479. obs.copy() raises
AttributeError unless obs is a dict or a list; for a list, the subsequent
r.update raises AttributeError; for a dict obs, lokasi.get raises
AttributeError when lokasi is not a dict, and the datetime coercions can
raise ValueError. -/
def obsRow (obs lokasi : PyVal) : Except String Row :=
  match obs, lokasi with
  | .dict f, .dict l => mergedRow f l
  | _, _ => .error "AttributeError"

/-- Sequential effectful map, as the Python for loop appends row results in
order and aborts at the first raised exception. -/
def mapMExc {α β : Type} (f : α → Except String β) : List α → Except String (List β)
  | [] => .ok []
  | x :: xs => do
    let y ← f x
    let ys ← mapMExc f xs
    .ok (y :: ys)

/-- The nested loops of app.py lines 465-479: for group in cuaca, for obs
in group, build a row. Iterating a non-iterable group raises TypeError;
iterating a dict group yields its keys (strings), whose rows then raise
AttributeError at obs.copy(). -/
def flattenGroups (lokasi : PyVal) : List PyVal → Except String (List Row)
  | [] => .ok []
  | g :: gs => do
    let obss ← pyIter g
    let rows ← mapMExc (fun o => obsRow o lokasi) obss
    let rest ← flattenGroups lokasi gs
    .ok (rows ++ rest)

/-- Rows of the dataframe before numeric coercion (app.py lines 463-480):
entry.get calls raise AttributeError when entry is not a dict. -/
def flattenRows (entry : PyVal) : Except String (List Row) := do
  let lokasi ← pyGet entry "lokasi" (PyVal.dict [])
  let cuaca ← pyGet entry "cuaca" (PyVal.list [])
  let groups ← pyIter cuaca
  flattenGroups lokasi groups

/-- The columns coerced to numeric in app.py line 481. -/
def numericCols : List String := ["t", "tcc", "tp", "wd_deg", "ws", "hu", "vs", "ws_kt"]

/-- A dataframe column exists when some row carries the key (app.py line
482 guards with: if c in df.columns). -/
def colPresent (rows : List Row) (c : String) : Bool :=
  rows.any fun r => r.any fun kv => kv.1 == c

/-- pandas to_numeric with errors=coerce on one cell: numbers pass through,
booleans become 0 or 1, strings parse or become NaN, None becomes NaN, and
container values raise TypeError even under errors=coerce. -/
def coerceCell : PyVal → Except String PyVal
  | .none => .ok .none
  | .bool b => .ok (.num (if b then 1 else 0))
  | .num q => .ok (.num q)
  | .str s =>
    .ok (match parseRat s with
      | some q => .num q
      | none => .none)
  | .list _ => .error "TypeError"
  | .dict _ => .error "TypeError"

/-- Numeric coercion of one row across the present numeric columns
(a row missing a column holds NaN for it in the dataframe). -/
def coerceRow (cols : List String) (r : Row) : Except String Row :=
  match cols with
  | [] => .ok r
  | c :: cs =>
    match coerceCell (rowGetD r c PyVal.none) with
    | .error e => .error e
    | .ok v => coerceRow cs (dictSet r c v)

/-- flatten_cuaca_entry from app.py lines 462-484: builds one row per
iterated observation, then coerces the present numeric columns, returning
the dataframe as a list of rows. Raised exceptions are Except.error. -/
def flatten_cuaca_entry (entry : PyVal) : Except String (List Row) := do
  let rows ← flattenRows entry
  let cols := numericCols.filter fun c => colPresent rows c
  mapMExc (coerceRow cols) rows

/-
Derived metrics (src/app.py lines 492-559 and 730-733).
-/

/-- Wind speed column computed at app.py line 731 when absent from the
feed: df ws_kt = df ws times MS_TO_KT; NaN propagates. -/
def ws_kt_of (ws : Option ℚ) : Option ℚ :=
  ws.map fun w => w * MS_TO_KT

/-- ceiling_proxy_from_tcc from app.py lines 492-505: cloud-cover bands to
an estimated ceiling in feet and a label; NaN input yields the unknown
sentinel (None, Unknown). -/
def ceiling_proxy_from_tcc (tcc_pct : Option ℚ) : Option ℤ × String :=
  match tcc_pct with
  | none => (none, "Unknown")
  | some tcc =>
    if tcc < 1 then (some 99999, "SKC (Clear)")
    else if tcc < 25 then (some 3500, "FEW (>3000 ft)")
    else if tcc < 50 then (some 2250, "SCT (1500-3000 ft)")
    else if tcc < 75 then (some 1250, "BKN (1000-1500 ft)")
    else (some 800, "OVC (<1000 ft)")

/-- The numeric body of convert_vis_to_sm (app.py lines 511-521) once
float() has succeeded. The Python branch test (vis_sm * 2) % 2 == 0 holds
exactly when vis_sm is an integer, embedded as a denominator test. -/
def convertVisNum (vis_m : ℚ) : String :=
  let vis_sm := vis_m * METER_TO_SM
  if vis_sm < 1 then fmt1 vis_sm ++ " SM"
  else if vis_sm < 5 then
    if vis_sm.den = 1 then toString (pyInt vis_sm) ++ " SM"
    else fmt1 vis_sm ++ " SM"
  else toString (rndHalfEven vis_sm) ++ " SM"

/-- convert_vis_to_sm from app.py lines 507-523. Input is a dataframe cell;
None and NaN short-circuit to the placeholder; float() of an unparsable
string raises ValueError which the source catches, also yielding the
placeholder; float() of a container raises TypeError, which the source
does not catch. -/
def convert_vis_to_sm (visibility_m : PyVal) : Except String String :=
  match visibility_m with
  | .none => .ok "—"
  | .list _ => .error "TypeError"
  | .dict _ => .error "TypeError"
  | .bool b => .ok (convertVisNum (if b then 1 else 0))
  | .num q => .ok (convertVisNum q)
  | .str s =>
    match parseRat s with
    | none => .ok "—"
    | some q => .ok (convertVisNum q)

/-- Statute miles from metres as computed inside classify_ifr_vfr
(app.py line 528): division by the literal 1609.34. -/
def vis_sm_of (visibility_m : ℚ) : ℚ :=
  visibility_m / (160934 / 100)

/-- classify_ifr_vfr from app.py lines 525-536: missing visibility is
Unknown; with a missing ceiling the visibility-only thresholds 3 and 1
apply; otherwise the VFR, MVFR, IFR guards are tried in order. -/
def classify_ifr_vfr (visibility_m : Option ℚ) (ceiling_ft : Option ℚ) : String :=
  match visibility_m with
  | none => "Unknown"
  | some vm =>
    let vis_sm := vis_sm_of vm
    match ceiling_ft with
    | none =>
      if 3 ≤ vis_sm then "VFR"
      else if 1 ≤ vis_sm then "MVFR"
      else "IFR"
    | some c =>
      if 5 ≤ vis_sm ∧ 3000 < c then "VFR"
      else if (3 ≤ vis_sm ∧ vis_sm < 5) ∨ (1000 < c ∧ c ≤ 3000) then "MVFR"
      else if vis_sm < 3 ∨ c ≤ 1000 then "IFR"
      else "Unknown"

/-- takeoff_landing_recommendation from app.py lines 538-559: sequential
rules over wind speed in knots, visibility in metres and accumulated rain
in millimetres; none models NaN (pd.notna fails). Returns the takeoff
status, landing status and the rationale list. -/
def takeoff_landing_recommendation (ws_kt vs_m tp_mm : Option ℚ) :
    String × String × List String :=
  let rationale : List String := []
  let takeoff := "Recommended"
  let landing := "Recommended"
  let step1 : String × String × List String :=
    match ws_kt with
    | some w =>
      if 30 ≤ w then
        ("Not Recommended", "Not Recommended",
          rationale ++ ["High surface wind: " ++ fmt1 w ++ " KT (>=30 KT limit)"])
      else if 20 ≤ w then
        (takeoff, landing, rationale ++ ["Strong wind: " ++ fmt1 w ++ " KT (>=20 KT advisory)"])
      else (takeoff, landing, rationale)
    | none => (takeoff, landing, rationale)
  let takeoff := step1.1
  let landing := step1.2.1
  let rationale := step1.2.2
  let step2 : String × List String :=
    match vs_m with
    | some v =>
      if v < 1000 then
        ("Not Recommended", rationale ++ ["Low visibility: " ++ pyStr v ++ " m (<1000 m)"])
      else (landing, rationale)
    | none => (landing, rationale)
  let landing := step2.1
  let rationale := step2.2
  let step3 : String × String × List String :=
    match tp_mm with
    | some t =>
      if 20 ≤ t then
        ("Caution", "Caution",
          rationale ++ ["Heavy accumulated rain: " ++ pyStr t ++ " mm (runway contamination possible)"])
      else if 5 < t then
        (takeoff, landing, rationale ++ ["Moderate rainfall: " ++ pyStr t ++ " mm"])
      else (takeoff, landing, rationale)
    | none => (takeoff, landing, rationale)
  let takeoff := step3.1
  let landing := step3.2.1
  let rationale := step3.2.2
  let rationale :=
    if rationale.isEmpty then ["Conditions within conservative operational limits."]
    else rationale
  (takeoff, landing, rationale)

/-
Accessors used to state claims about dataframe results, and the
well-shapedness predicate under which the normalizer cannot raise.
-/

/-- Numeric cell of a dataframe row as the pandas scalar the source reads
with now.get(c): a number, or missing (NaN). -/
def rowNum (r : Row) (c : String) : Option ℚ :=
  match rowGetD r c PyVal.none with
  | .num q => some q
  | _ => none

/-- First row of a dataframe result (df.iloc 0 after a successful run). -/
def firstRow (e : Except String (List Row)) : Row :=
  match e with
  | .ok (r :: _) => r
  | _ => []

/-- Number of rows of a dataframe result, when the computation returned. -/
def rowCount (e : Except String (List Row)) : Option ℕ :=
  match e with
  | .ok rs => some rs.length
  | .error _ => none

/-- The observation of the end-to-end scenario of the spec (section 8). -/
def c5obs : PyVal := .dict [("t", .str "30"), ("hu", .str "80"), ("ws", .str "10"),
  ("wd_deg", .str "90"), ("vs", .str "2000"), ("tp", .str "25"), ("tcc", .str "90"),
  ("local_datetime", .str "2025-01-01T12:00:00")]

/-- The LocationBlock of the end-to-end scenario: one lokasi and one cuaca
group holding one observation. -/
def c5entry : PyVal := .dict [
  ("lokasi", .dict [("lat", .str "-6.2"), ("lon", .str "106.8"), ("kotkab", .str "Jakarta")]),
  ("cuaca", .list [.list [c5obs]])]

/-- C1: the claim states that for wind speed of 30 kt or more together
with accumulated rain of 20 mm or more, both returned statuses stay
Not Recommended because the later rain rule may not loosen the earlier
status. The code contradicts this: at app.py lines 551-553 the rain rule
assigns Caution to both statuses unconditionally, overwriting the
Not Recommended set by the wind rule at lines 542-544. At the failing
input ws_kt = 35, vs_m = 5000, tp_mm = 25 the source returns Caution for
both takeoff and landing, with both rationale strings accumulated. -/
theorem c1_rain_rule_overwrites_no_go :
    takeoff_landing_recommendation (some 35) (some 5000) (some 25) =
      ("Caution", "Caution",
        ["High surface wind: 35.0 KT (>=30 KT limit)",
          "Heavy accumulated rain: 25.0 mm (runway contamination possible)"]) ∧
    (takeoff_landing_recommendation (some 35) (some 5000) (some 25)).1 ≠
      "Not Recommended" := by
  constructor
  · with_unfolding_all rfl
  · intro hcontra
    have h1 : (takeoff_landing_recommendation (some 35) (some 5000) (some 25)).1 =
        "Caution" := by with_unfolding_all rfl
    rw [h1] at hcontra
    exact absurd hcontra (by decide)

/-- C2 counterexample: at the concrete outcome of an HTTP 404 response,
fetch_forecast raises (requests HTTPError from raise_for_status at app.py
line 459) instead of returning a sentinel None or empty-mapping value, so
the claim that failures are returned as a sentinel rather than raised is
false. -/
theorem c2_counterexample_404_raises :
    fetch_forecast (HttpOutcome.response 404 PyVal.none) = Except.error "HTTPError" := rfl

/-- C2 (amended): fetch_forecast returns the parsed JSON body on success
statuses (below 400) and raises on timeout, connection error or an HTTP
error status of 400 or above; the exception propagates to the caller,
which handles it in the top-level try/except of app.py lines 700 and
1169-1175. -/
theorem c2_fetch_failure_semantics (s : ℕ) (b : PyVal) :
    fetch_forecast HttpOutcome.timeout = Except.error "Timeout" ∧
    fetch_forecast HttpOutcome.connError = Except.error "ConnectionError" ∧
    (s < 400 → fetch_forecast (HttpOutcome.response s b) = Except.ok b) ∧
    (400 ≤ s → fetch_forecast (HttpOutcome.response s b) = Except.error "HTTPError") := by
  refine ⟨rfl, rfl, ?_, ?_⟩
  · intro h
    simp only [fetch_forecast]
    rw [if_neg (by omega)]
  · intro h
    simp only [fetch_forecast]
    rw [if_pos h]

/-- C2 witness: a 200 response returns its parsed body. -/
theorem c2_fetch_failure_semantics_witness :
    fetch_forecast (HttpOutcome.response 200 (PyVal.dict [])) = Except.ok (PyVal.dict []) :=
  (c2_fetch_failure_semantics 200 (PyVal.dict [])).2.2.1 (by omega)

/-- C4: classify_ifr_vfr with visibility in metres (converted to statute
miles by dividing by 1609.34) and a present ceiling follows the claimed
rule order: VFR when vis of 5 SM or more and ceiling above 3000 ft, else
MVFR when 3 SM or more but under 5 SM or ceiling in (1000, 3000], else IFR
when under 3 SM or ceiling at most 1000 ft, else Unknown; and at exactly
5 SM (8046.7 m) the boundary lands as documented: ceiling 3001 is VFR,
ceiling exactly 3000 is MVFR, not VFR. -/
theorem c4_classification_with_boundary (vm c : ℚ) :
    (5 ≤ vis_sm_of vm → 3000 < c → classify_ifr_vfr (some vm) (some c) = "VFR") ∧
    (¬ (5 ≤ vis_sm_of vm ∧ 3000 < c) →
      (3 ≤ vis_sm_of vm ∧ vis_sm_of vm < 5) ∨ (1000 < c ∧ c ≤ 3000) →
      classify_ifr_vfr (some vm) (some c) = "MVFR") ∧
    (¬ (5 ≤ vis_sm_of vm ∧ 3000 < c) →
      ¬ ((3 ≤ vis_sm_of vm ∧ vis_sm_of vm < 5) ∨ (1000 < c ∧ c ≤ 3000)) →
      vis_sm_of vm < 3 ∨ c ≤ 1000 →
      classify_ifr_vfr (some vm) (some c) = "IFR") ∧
    (¬ (5 ≤ vis_sm_of vm ∧ 3000 < c) →
      ¬ ((3 ≤ vis_sm_of vm ∧ vis_sm_of vm < 5) ∨ (1000 < c ∧ c ≤ 3000)) →
      ¬ (vis_sm_of vm < 3 ∨ c ≤ 1000) →
      classify_ifr_vfr (some vm) (some c) = "Unknown") ∧
    classify_ifr_vfr (some (80467/10)) (some 3001) = "VFR" ∧
    classify_ifr_vfr (some (80467/10)) (some 3000) = "MVFR" ∧
    classify_ifr_vfr (some (80467/10)) (some 3000) ≠ "VFR" := by
  refine ⟨?_, ?_, ?_, ?_, ?_, ?_, ?_⟩
  · intro h1 h2
    simp only [classify_ifr_vfr]
    rw [if_pos ⟨h1, h2⟩]
  · intro h1 h2
    simp only [classify_ifr_vfr]
    rw [if_neg h1, if_pos h2]
  · intro h1 h2 h3
    simp only [classify_ifr_vfr]
    rw [if_neg h1, if_neg h2, if_pos h3]
  · intro h1 h2 h3
    simp only [classify_ifr_vfr]
    rw [if_neg h1, if_neg h2, if_neg h3]
  · with_unfolding_all rfl
  · with_unfolding_all rfl
  · have h1 : classify_ifr_vfr (some (80467/10)) (some 3000) = "MVFR" := by
      with_unfolding_all rfl
    rw [h1]
    decide

/-- C4 witness: 16093.4 m is 10 SM, and with a 5000 ft ceiling the VFR
branch applies. -/
theorem c4_classification_with_boundary_witness :
    classify_ifr_vfr (some (160934/10)) (some 5000) = "VFR" :=
  (c4_classification_with_boundary (160934/10) 5000).1
    (by rw [vis_sm_of]; norm_num) (by norm_num)

/-- C5: the end-to-end scenario. Flattening the single-location raw entry
yields exactly one row with temperature 30; the wind-speed conversion of
the 10 m/s value gives 19.4384 kt, within 0.1 of the claimed 19.4 kt (and
under the 20 kt advisory threshold); cloud cover 90 percent gives the
800 ft overcast proxy (label OVC, meaning overcast); visibility 2000 m
with ceiling 800 ft classifies IFR; and the recommendation is Caution for
both takeoff and landing with the heavy-accumulated-rain rationale as the
only rationale entry, hence no wind advisory note. -/
theorem c5_end_to_end_scenario :
    rowCount (flatten_cuaca_entry c5entry) = some 1 ∧
    rowNum (firstRow (flatten_cuaca_entry c5entry)) "t" = some 30 ∧
    ws_kt_of (rowNum (firstRow (flatten_cuaca_entry c5entry)) "ws") = some (194384/10000) ∧
    |(194384/10000 : ℚ) - 194/10| < 1/10 ∧
    ceiling_proxy_from_tcc (rowNum (firstRow (flatten_cuaca_entry c5entry)) "tcc") =
      (some 800, "OVC (<1000 ft)") ∧
    classify_ifr_vfr (rowNum (firstRow (flatten_cuaca_entry c5entry)) "vs") (some 800) =
      "IFR" ∧
    takeoff_landing_recommendation
      (ws_kt_of (rowNum (firstRow (flatten_cuaca_entry c5entry)) "ws"))
      (rowNum (firstRow (flatten_cuaca_entry c5entry)) "vs")
      (rowNum (firstRow (flatten_cuaca_entry c5entry)) "tp") =
      ("Caution", "Caution",
        ["Heavy accumulated rain: 25.0 mm (runway contamination possible)"]) := by
  refine ⟨?_, ?_, ?_, ?_, ?_, ?_, ?_⟩
  · with_unfolding_all rfl
  · with_unfolding_all rfl
  · with_unfolding_all rfl
  · rw [abs_sub_lt_iff]
    norm_num
  · with_unfolding_all rfl
  · with_unfolding_all rfl
  · with_unfolding_all rfl

/-- C6: the ceiling proxy lookup table. Cloud cover below 1 percent gives
99999 ft labelled SKC (Clear); 1 to under 25 gives 3500 ft FEW; 25 to
under 50 gives 2250 ft SCT (Scattered); 50 to under 75 gives 1250 ft BKN
(Broken); 75 and above gives 800 ft OVC (Overcast); and missing cloud
cover yields the unknown sentinel (None, Unknown) without raising. -/
theorem c6_ceiling_proxy_bands (t : ℚ) :
    ceiling_proxy_from_tcc none = (none, "Unknown") ∧
    (t < 1 → ceiling_proxy_from_tcc (some t) = (some 99999, "SKC (Clear)")) ∧
    (1 ≤ t → t < 25 → ceiling_proxy_from_tcc (some t) = (some 3500, "FEW (>3000 ft)")) ∧
    (25 ≤ t → t < 50 → ceiling_proxy_from_tcc (some t) = (some 2250, "SCT (1500-3000 ft)")) ∧
    (50 ≤ t → t < 75 → ceiling_proxy_from_tcc (some t) = (some 1250, "BKN (1000-1500 ft)")) ∧
    (75 ≤ t → ceiling_proxy_from_tcc (some t) = (some 800, "OVC (<1000 ft)")) := by
  refine ⟨rfl, ?_, ?_, ?_, ?_, ?_⟩
  · intro h1
    simp only [ceiling_proxy_from_tcc]
    rw [if_pos h1]
  · intro h1 h2
    simp only [ceiling_proxy_from_tcc]
    rw [if_neg (by linarith), if_pos h2]
  · intro h1 h2
    simp only [ceiling_proxy_from_tcc]
    rw [if_neg (by linarith), if_neg (by linarith), if_pos h2]
  · intro h1 h2
    simp only [ceiling_proxy_from_tcc]
    rw [if_neg (by linarith), if_neg (by linarith), if_neg (by linarith), if_pos h2]
  · intro h1
    simp only [ceiling_proxy_from_tcc]
    rw [if_neg (by linarith), if_neg (by linarith), if_neg (by linarith),
      if_neg (by linarith)]

/-- C6 witness: 90 percent cloud cover falls in the overcast band. -/
theorem c6_ceiling_proxy_bands_witness :
    ceiling_proxy_from_tcc (some 90) = (some 800, "OVC (<1000 ft)") :=
  (c6_ceiling_proxy_bands 90).2.2.2.2.2 (by norm_num)

/-- C8: wind speed in knots is native speed times exactly MS_TO_KT =
1.94384 (app.py lines 449 and 731), so 5 m/s converts to exactly 9.7192 kt
(well within the claimed 0.001 tolerance); and 1609.34 m times the
visibility factor METER_TO_SM = 0.000621371 is within 0.01 of one statute
mile. -/
theorem c8_wind_unit_conversion :
    MS_TO_KT = 194384/100000 ∧
    (∀ w : ℚ, ws_kt_of (some w) = some (w * MS_TO_KT)) ∧
    ws_kt_of (some 5) = some (97192/10000) ∧
    |(160934/100 : ℚ) * METER_TO_SM - 1| ≤ 1/100 := by
  refine ⟨rfl, fun w => rfl, ?_, ?_⟩
  · with_unfolding_all rfl
  · rw [METER_TO_SM, abs_le]
    norm_num

/-- C9 counterexample: at the visibility 1000000000/621371 m the converted
value is exactly 1 statute mile, and the source formats it through the
integer branch of app.py lines 516-517 as 1 SM, not with the one-decimal
precision (1.0 SM) the claim states for values below 5 SM. -/
theorem c9_counterexample_integer_mile :
    convert_vis_to_sm (.num (1000000000/621371)) = .ok "1 SM" ∧
    ("1 SM" : String) ≠ "1.0 SM" := by
  constructor
  · with_unfolding_all rfl
  · decide

/-- C9 (amended): convert_vis_to_sm converts via the factor METER_TO_SM =
0.000621371 and formats with one-decimal precision below 5 SM except when
the converted value is a whole number of miles at least 1, which the
source formats as a bare integer; at or above 5 SM it rounds to an
integer; missing or NaN input and unparsable strings yield the
em-dash placeholder rather than raising. -/
theorem c9_vis_conversion_format (q : ℚ) (s : String) :
    convert_vis_to_sm PyVal.none = .ok "—" ∧
    (parseRat s = none → convert_vis_to_sm (.str s) = .ok "—") ∧
    (q * METER_TO_SM < 1 →
      convert_vis_to_sm (.num q) = .ok (fmt1 (q * METER_TO_SM) ++ " SM")) ∧
    (1 ≤ q * METER_TO_SM → q * METER_TO_SM < 5 → (q * METER_TO_SM).den ≠ 1 →
      convert_vis_to_sm (.num q) = .ok (fmt1 (q * METER_TO_SM) ++ " SM")) ∧
    (1 ≤ q * METER_TO_SM → q * METER_TO_SM < 5 → (q * METER_TO_SM).den = 1 →
      convert_vis_to_sm (.num q) = .ok (toString (pyInt (q * METER_TO_SM)) ++ " SM")) ∧
    (5 ≤ q * METER_TO_SM →
      convert_vis_to_sm (.num q) = .ok (toString (rndHalfEven (q * METER_TO_SM)) ++ " SM")) := by
  refine ⟨rfl, ?_, ?_, ?_, ?_, ?_⟩
  · intro h
    simp [convert_vis_to_sm, h]
  · intro h1
    simp only [convert_vis_to_sm, convertVisNum]
    rw [if_pos h1]
  · intro h1 h2 h3
    simp only [convert_vis_to_sm, convertVisNum]
    rw [if_neg (by linarith), if_pos h2, if_neg h3]
  · intro h1 h2 h3
    simp only [convert_vis_to_sm, convertVisNum]
    rw [if_neg (by linarith), if_pos h2, if_pos h3]
  · intro h1
    simp only [convert_vis_to_sm, convertVisNum]
    rw [if_neg (by linarith), if_neg (by linarith)]

/-- C9 witness: 2000 m converts to 1.242742 SM and formats with one
decimal as 1.2 SM. -/
theorem c9_vis_conversion_format_witness :
    convert_vis_to_sm (.num 2000) = .ok "1.2 SM" := by
  have hden : ((2000 : ℚ) * METER_TO_SM).den = 500000 := by with_unfolding_all rfl
  have happ := (c9_vis_conversion_format 2000 "").2.2.2.1
    (by rw [METER_TO_SM]; norm_num) (by rw [METER_TO_SM]; norm_num) (by omega)
  exact happ.trans (by with_unfolding_all rfl)

/-- C10: with visibility present but the ceiling argument None (the proxy
returned the unknown sentinel), classify_ifr_vfr does not return Unknown
but uses the visibility-only thresholds of app.py lines 529-532: VFR at
3 SM or more, MVFR at 1 SM or more but under 3 SM, IFR under 1 SM; only a
missing visibility yields Unknown. -/
theorem c10_visibility_only_fallback (vm : ℚ) (c : Option ℚ) :
    classify_ifr_vfr none c = "Unknown" ∧
    (3 ≤ vis_sm_of vm → classify_ifr_vfr (some vm) none = "VFR") ∧
    (1 ≤ vis_sm_of vm → vis_sm_of vm < 3 → classify_ifr_vfr (some vm) none = "MVFR") ∧
    (vis_sm_of vm < 1 → classify_ifr_vfr (some vm) none = "IFR") ∧
    classify_ifr_vfr (some vm) none ≠ "Unknown" := by
  refine ⟨rfl, ?_, ?_, ?_, ?_⟩
  · intro h1
    simp only [classify_ifr_vfr]
    rw [if_pos h1]
  · intro h1 h2
    simp only [classify_ifr_vfr]
    rw [if_neg (by linarith), if_pos h1]
  · intro h1
    simp only [classify_ifr_vfr]
    rw [if_neg (by linarith), if_neg (by linarith)]
  · simp only [classify_ifr_vfr]
    split_ifs <;> decide

/-- C10 witness: 9656.04 m is 6 SM, classified VFR with no ceiling. -/
theorem c10_visibility_only_fallback_witness :
    classify_ifr_vfr (some (965604/100)) none = "VFR" :=
  (c10_visibility_only_fallback (965604/100) none).2.1
    (by rw [vis_sm_of]; norm_num)
